import Mathlib

/-!
Verification of the memogarden-utils library against its natural-language
specification.  Each Python module relevant to the checked claims is shallowly
embedded as executable Lean definitions: pure Python functions become Lean
functions on `String`/`Nat`/`Int`/`Rat`/`Option`, fallible code returns
`Except`, and the external libraries the code delegates to (hashlib's SHA-256,
unicodedata's east-asian widths, dateutil's rrule engine restricted to the
daily rules the claims exercise) are modelled from their documented behaviour.
-/

/-! ## SHA-256 (model of Python's hashlib.sha256(...).hexdigest())

The hash-chain module delegates to `hashlib.sha256`; the definitions below
implement FIPS 180-4 SHA-256 over byte lists, with 32-bit words represented as
natural numbers reduced modulo 2^32. -/

/-- Reduce a natural number to a 32-bit word. -/
def mod32 (n : Nat) : Nat := n % 4294967296

/-- Rotate a 32-bit word right by k bits. -/
def rotr (k x : Nat) : Nat := mod32 ((x >>> k) ||| (x <<< (32 - k)))

/-- Bitwise complement of a 32-bit word. -/
def not32 (x : Nat) : Nat := x ^^^ 4294967295

/-- SHA-256 Σ0. -/
def bigSigma0 (x : Nat) : Nat := (rotr 2 x) ^^^ (rotr 13 x) ^^^ (rotr 22 x)

/-- SHA-256 Σ1. -/
def bigSigma1 (x : Nat) : Nat := (rotr 6 x) ^^^ (rotr 11 x) ^^^ (rotr 25 x)

/-- SHA-256 σ0. -/
def smallSigma0 (x : Nat) : Nat := (rotr 7 x) ^^^ (rotr 18 x) ^^^ (x >>> 3)

/-- SHA-256 σ1. -/
def smallSigma1 (x : Nat) : Nat := (rotr 17 x) ^^^ (rotr 19 x) ^^^ (x >>> 10)

/-- SHA-256 choice function. -/
def shaCh (x y z : Nat) : Nat := (x &&& y) ^^^ (not32 x &&& z)

/-- SHA-256 majority function. -/
def shaMaj (x y z : Nat) : Nat := (x &&& y) ^^^ (x &&& z) ^^^ (y &&& z)

/-- The 64 SHA-256 round constants of FIPS 180-4, written in decimal. -/
def shaK : List Nat :=
  [1116352408, 1899447441, 3049323471, 3921009573, 961987163, 1508970993,
   2453635748, 2870763221, 3624381080, 310598401, 607225278, 1426881987,
   1925078388, 2162078206, 2614888103, 3248222580, 3835390401, 4022224774,
   264347078, 604807628, 770255983, 1249150122, 1555081692, 1996064986,
   2554220882, 2821834349, 2952996808, 3210313671, 3336571891, 3584528711,
   113926993, 338241895, 666307205, 773529912, 1294757372, 1396182291,
   1695183700, 1986661051, 2177026350, 2456956037, 2730485921, 2820302411,
   3259730800, 3345764771, 3516065817, 3600352804, 4094571909, 275423344,
   430227734, 506948616, 659060556, 883997877, 958139571, 1322822218,
   1537002063, 1747873779, 1955562222, 2024104815, 2227730452, 2361852424,
   2428436474, 2756734187, 3204031479, 3329325298]

/-- The SHA-256 initial hash value of FIPS 180-4, written in decimal. -/
def shaH0 : List Nat :=
  [1779033703, 3144134277, 1013904242, 2773480762,
   1359893119, 2600822924, 528734635, 1541459225]

/-- UTF-8 encoding of one character as a list of bytes, as Python's
str.encode() produces for each code point. -/
def utf8Bytes (c : Char) : List Nat :=
  let n := c.toNat
  if n < 128 then [n]
  else if n < 2048 then [192 + n / 64, 128 + n % 64]
  else if n < 65536 then [224 + n / 4096, 128 + n / 64 % 64, 128 + n % 64]
  else [240 + n / 262144, 128 + n / 4096 % 64, 128 + n / 64 % 64, 128 + n % 64]

/-- UTF-8 bytes of a whole string (Python's str.encode()). -/
def strBytes (s : String) : List Nat := (s.data.map utf8Bytes).flatten

/-- Big-endian representation of a natural number in exactly w bytes. -/
def beBytes : Nat → Nat → List Nat
  | 0, _ => []
  | w + 1, n => beBytes w (n / 256) ++ [n % 256]

/-- SHA-256 message padding: append 0x80, zero bytes, and the 64-bit
big-endian bit length so the total is a multiple of 64 bytes. -/
def shaPad (msg : List Nat) : List Nat :=
  let len := msg.length
  let padLen := (64 - (len + 9) % 64) % 64
  msg ++ [128] ++ List.replicate padLen 0 ++ beBytes 8 (8 * len)

/-- Group four consecutive big-endian bytes into one 32-bit word. -/
def beWords : List Nat → List Nat
  | a :: b :: c :: d :: rest => (((a * 256 + b) * 256 + c) * 256 + d) :: beWords rest
  | _ => []

/-- Split a byte list into consecutive 64-byte blocks; the fuel argument is
an upper bound on the number of blocks, so structural recursion suffices. -/
def chunksGo : Nat → List Nat → List (List Nat)
  | 0, _ => []
  | _, [] => []
  | fuel + 1, l => l.take 64 :: chunksGo fuel (l.drop 64)

/-- Split a byte list into consecutive 64-byte blocks. -/
def chunks64 (l : List Nat) : List (List Nat) := chunksGo l.length l

/-- Extend the 16 block words to the 64-entry message schedule; the
accumulator holds the schedule computed so far in reverse order. -/
def extendW : Nat → List Nat → List Nat
  | 0, acc => acc.reverse
  | fuel + 1, acc =>
      let w2 := acc.getD 1 0
      let w7 := acc.getD 6 0
      let w15 := acc.getD 14 0
      let w16 := acc.getD 15 0
      extendW fuel (mod32 (smallSigma1 w2 + w7 + smallSigma0 w15 + w16) :: acc)

/-- Working state of the SHA-256 compression function. -/
structure ShaState where
  a : Nat
  b : Nat
  c : Nat
  d : Nat
  e : Nat
  f : Nat
  g : Nat
  h : Nat
  deriving Repr, DecidableEq

/-- One round of the SHA-256 compression function, consuming a round
constant paired with a schedule word. -/
def shaRound (st : ShaState) (kw : Nat × Nat) : ShaState :=
  let t1 := mod32 (st.h + bigSigma1 st.e + shaCh st.e st.f st.g + kw.1 + kw.2)
  let t2 := mod32 (bigSigma0 st.a + shaMaj st.a st.b st.c)
  { a := mod32 (t1 + t2), b := st.a, c := st.b, d := st.c,
    e := mod32 (st.d + t1), f := st.e, g := st.f, h := st.g }

/-- Process one 64-byte block, updating the eight-word hash value. -/
def shaBlock (hs : List Nat) (block : List Nat) : List Nat :=
  let ws := extendW 48 (beWords block).reverse
  let st0 : ShaState :=
    { a := hs.getD 0 0, b := hs.getD 1 0, c := hs.getD 2 0, d := hs.getD 3 0,
      e := hs.getD 4 0, f := hs.getD 5 0, g := hs.getD 6 0, h := hs.getD 7 0 }
  let stf := (shaK.zip ws).foldl shaRound st0
  [mod32 (hs.getD 0 0 + stf.a), mod32 (hs.getD 1 0 + stf.b),
   mod32 (hs.getD 2 0 + stf.c), mod32 (hs.getD 3 0 + stf.d),
   mod32 (hs.getD 4 0 + stf.e), mod32 (hs.getD 5 0 + stf.f),
   mod32 (hs.getD 6 0 + stf.g), mod32 (hs.getD 7 0 + stf.h)]

/-- Lowercase hexadecimal digit of n mod 16. -/
def hexChar (n : Nat) : Char := Nat.digitChar (n % 16)

/-- Eight lowercase hex characters of a 32-bit word, most significant first. -/
def wordHexChars (w : Nat) : List Char :=
  [hexChar (w / 268435456), hexChar (w / 16777216), hexChar (w / 1048576),
   hexChar (w / 65536), hexChar (w / 4096), hexChar (w / 256),
   hexChar (w / 16), hexChar w]

/-- Hex-encoded SHA-256 digest of a byte list. -/
def sha256hexBytes (msg : List Nat) : String :=
  let hs := (chunks64 (shaPad msg)).foldl shaBlock shaH0
  String.mk (hs.map wordHexChars).flatten

/-- Hex-encoded SHA-256 digest of the UTF-8 bytes of a string: the model of
Python's hashlib.sha256(s.encode()).hexdigest(). -/
def sha256hex (s : String) : String := sha256hexBytes (strBytes s)

/-- Sanity vector: the SHA-256 model agrees with the published digest of the
empty message. -/
theorem sha256hex_empty_vector :
    sha256hex "" = "e3b0c44298fc1c149afbf4c8996fb92427ae41e4649b934ca495991b7852b855" := by
  rfl

/-- Sanity vector: the SHA-256 model agrees with the published digest of
the three-byte message "abc". -/
theorem sha256hex_abc_vector :
    sha256hex "abc" = "ba7816bf8f01cfea414140de5dae2223b00361a396177a9cb410ff61f20015ad" := by
  rfl

/-! ## Hash-chain module (src/utils/hash_chain.py)

Optional string arguments default to None in the source; they are embedded as
`Option String`, and the f-string fragments `{x or ''}` are embedded through
`pyOrEmpty`, the Python truthiness coalescing of a possibly-absent string. -/

/-- Python's `x or ""` on an optional string: None and the empty string both
render as the empty string, any other string renders as itself. -/
def pyOrEmpty : Option String → String
  | none => ""
  | some s => if s = "" then "" else s

/-- Hash input of compute_entity_hash, built from the adjacent f-string
literal fragments exactly as they are laid out in the source. -/
def hash_input (entity_type created_at updated_at : String)
    (group_id derived_from superseded_by superseded_at previous_hash : Option String) :
    String :=
  ("type:" ++ entity_type ++ "|") ++
  ("created_at:" ++ created_at ++ "|") ++
  ("updated_at:" ++ updated_at ++ "|") ++
  ("group_id:" ++ pyOrEmpty group_id ++ "|") ++
  ("derived_from:" ++ pyOrEmpty derived_from ++ "|") ++
  ("superseded_by:" ++ pyOrEmpty superseded_by ++ "|") ++
  ("superseded_at:" ++ pyOrEmpty superseded_at ++ "|") ++
  ("previous_hash:" ++ pyOrEmpty previous_hash)

/-- Embedding of compute_entity_hash: the hex SHA-256 digest of the UTF-8
encoded hash input. -/
def compute_entity_hash (entity_type created_at updated_at : String)
    (group_id derived_from superseded_by superseded_at previous_hash : Option String) :
    String :=
  sha256hex (hash_input entity_type created_at updated_at
    group_id derived_from superseded_by superseded_at previous_hash)

/-- Embedding of compute_next_hash: compute_entity_hash with the current hash
passed as previous_hash. -/
def compute_next_hash (entity_type created_at updated_at current_hash : String)
    (group_id derived_from superseded_by superseded_at : Option String) : String :=
  compute_entity_hash entity_type created_at updated_at
    group_id derived_from superseded_by superseded_at (some current_hash)

/-- C1: for every choice of entity_type, created_at, updated_at and the five
optional string arguments, compute_entity_hash returns the hex-encoded
SHA-256 digest of exactly the pipe-delimited eight-field string of the
specification, absent optional arguments rendered as the empty string, with
the fields in exactly the specified order. -/
theorem compute_entity_hash_spec (entity_type created_at updated_at : String)
    (group_id derived_from superseded_by superseded_at previous_hash : Option String) :
    compute_entity_hash entity_type created_at updated_at
      group_id derived_from superseded_by superseded_at previous_hash =
    sha256hex ("type:" ++ entity_type ++ "|created_at:" ++ created_at ++
      "|updated_at:" ++ updated_at ++ "|group_id:" ++ pyOrEmpty group_id ++
      "|derived_from:" ++ pyOrEmpty derived_from ++ "|superseded_by:" ++
      pyOrEmpty superseded_by ++ "|superseded_at:" ++ pyOrEmpty superseded_at ++
      "|previous_hash:" ++ pyOrEmpty previous_hash) := by
  unfold compute_entity_hash hash_input
  apply congrArg
  apply String.ext
  simp only [String.data_append]
  simp only [List.append_assoc]
  rfl

set_option maxRecDepth 100000 in
/-- Sanity vector: compute_entity_hash on a concrete input agrees with the
digest produced by an independent SHA-256 implementation on the documented
pipe-delimited string. -/
theorem compute_entity_hash_vector :
    compute_entity_hash "transactions" "2025-01-01T00:00:00Z" "2025-01-02T00:00:00Z"
      none none none none none =
    "23fcefae683ce5a2c3ab2d106cd148ed1ade7c484bf45c47bdec5d3f31f9eb41" := by
  rfl

/-- C2: compute_next_hash with current_hash H equals compute_entity_hash with
previous_hash H and the same remaining arguments: chain continuation is
exactly the substitution of current_hash for previous_hash. -/
theorem compute_next_hash_substitution
    (entity_type created_at updated_at current_hash : String)
    (group_id derived_from superseded_by superseded_at : Option String) :
    compute_next_hash entity_type created_at updated_at current_hash
      group_id derived_from superseded_by superseded_at =
    compute_entity_hash entity_type created_at updated_at
      group_id derived_from superseded_by superseded_at (some current_hash) := by
  rfl

/-! ## UID-prefix module (src/utils/uid.py)

Strings are manipulated through their character lists; Python's
str.startswith is embedded as list-prefix testing and the slice
`uuid[len(p):]` as dropping the prefix length. -/

/-- Reserved core namespace tag. -/
def UUID_PREFIX_CORE : String := "core_"

/-- Reserved soil namespace tag. -/
def UUID_PREFIX_SOIL : String := "soil_"

/-- Python str.startswith: the pattern is a prefix of the string. -/
def py_startswith (s p : String) : Bool := p.data.isPrefixOf s.data

/-- Embedding of add_core_prefix: prefix with core_ unless either namespace
tag is already present. -/
def add_core_prefix (uuid : String) : String :=
  if py_startswith uuid UUID_PREFIX_CORE || py_startswith uuid UUID_PREFIX_SOIL then uuid
  else UUID_PREFIX_CORE ++ uuid

/-- Embedding of add_soil_prefix: prefix with soil_ unless either namespace
tag is already present. -/
def add_soil_prefix (uuid : String) : String :=
  if py_startswith uuid UUID_PREFIX_SOIL || py_startswith uuid UUID_PREFIX_CORE then uuid
  else UUID_PREFIX_SOIL ++ uuid

/-- Embedding of strip_prefix: remove a leading core_ or soil_ tag if
present, otherwise return the value unchanged. -/
def strip_prefix (uuid : String) : String :=
  if py_startswith uuid UUID_PREFIX_CORE then
    String.mk (uuid.data.drop UUID_PREFIX_CORE.length)
  else if py_startswith uuid UUID_PREFIX_SOIL then
    String.mk (uuid.data.drop UUID_PREFIX_SOIL.length)
  else uuid

/-- Embedding of has_core_prefix. -/
def has_core_prefix (uuid : String) : Bool := py_startswith uuid UUID_PREFIX_CORE

/-- Embedding of has_soil_prefix. -/
def has_soil_prefix (uuid : String) : Bool := py_startswith uuid UUID_PREFIX_SOIL

/-- Embedding of has_prefix: either namespace tag is present. -/
def has_prefix (uuid : String) : Bool := has_core_prefix uuid || has_soil_prefix uuid

/-- C3: for every string u starting with neither core_ nor soil_, adding the
core prefix is idempotent, a soil request does not overwrite an existing
core prefix, stripping recovers u, and no prefix function produces a value
carrying both namespace tags at once. -/
theorem uid_prefix_algebra (u : String)
    (hc : py_startswith u UUID_PREFIX_CORE = false)
    (hs : py_startswith u UUID_PREFIX_SOIL = false) :
    add_core_prefix ( add_core_prefix u) = add_core_prefix u ∧
    add_soil_prefix ( add_core_prefix u) = add_core_prefix u ∧
    strip_prefix ( add_core_prefix u) = u ∧
    ¬( has_core_prefix ( add_core_prefix u) = true ∧
       has_soil_prefix ( add_core_prefix u) = true) ∧
    ¬( has_core_prefix ( add_soil_prefix u) = true ∧
       has_soil_prefix ( add_soil_prefix u) = true) := by
  obtain ⟨du⟩ := u
  have hcoreAdd : add_core_prefix (String.mk du) = UUID_PREFIX_CORE ++ String.mk du := by
    unfold add_core_prefix
    rw [hc, hs]
    simp
  have hsoilAdd : add_soil_prefix (String.mk du) = UUID_PREFIX_SOIL ++ String.mk du := by
    unfold add_soil_prefix
    rw [hc, hs]
    simp
  have hCC : py_startswith (UUID_PREFIX_CORE ++ String.mk du) UUID_PREFIX_CORE = true := by
    simp [py_startswith, UUID_PREFIX_CORE, String.data_append, List.isPrefixOf_iff_prefix]
  have hCS : py_startswith (UUID_PREFIX_CORE ++ String.mk du) UUID_PREFIX_SOIL = false := by
    simp [py_startswith, UUID_PREFIX_CORE, UUID_PREFIX_SOIL, String.data_append,
      List.isPrefixOf]
  have hSS : py_startswith (UUID_PREFIX_SOIL ++ String.mk du) UUID_PREFIX_SOIL = true := by
    simp [py_startswith, UUID_PREFIX_SOIL, String.data_append, List.isPrefixOf_iff_prefix]
  have hSC : py_startswith (UUID_PREFIX_SOIL ++ String.mk du) UUID_PREFIX_CORE = false := by
    simp [py_startswith, UUID_PREFIX_CORE, UUID_PREFIX_SOIL, String.data_append,
      List.isPrefixOf]
  refine ⟨?_, ?_, ?_, ?_, ?_⟩
  · rw [hcoreAdd]
    unfold add_core_prefix
    rw [hCC]
    simp
  · rw [hcoreAdd]
    unfold add_soil_prefix
    rw [hCS, hCC]
    simp
  · rw [hcoreAdd]
    unfold strip_prefix
    rw [hCC]
    simp only [if_true]
    have hd : (UUID_PREFIX_CORE ++ String.mk du).data.drop UUID_PREFIX_CORE.length = du := by
      show List.drop 5 _ = _
      simp [UUID_PREFIX_CORE, String.data_append]
    rw [hd]
  · rw [hcoreAdd]
    unfold has_core_prefix has_soil_prefix
    rw [hCS]
    simp
  · rw [hsoilAdd]
    unfold has_core_prefix has_soil_prefix
    rw [hSC]
    simp

/-- C3 witness: the prefix algebra instantiated at a concrete bare UUID. -/
theorem uid_prefix_algebra_witness :
    add_core_prefix ( add_core_prefix "a1b2c3d4-e5f6-7890-abcd-ef1234567890") =
      add_core_prefix "a1b2c3d4-e5f6-7890-abcd-ef1234567890" ∧
    add_soil_prefix ( add_core_prefix "a1b2c3d4-e5f6-7890-abcd-ef1234567890") =
      add_core_prefix "a1b2c3d4-e5f6-7890-abcd-ef1234567890" ∧
    strip_prefix ( add_core_prefix "a1b2c3d4-e5f6-7890-abcd-ef1234567890") =
      "a1b2c3d4-e5f6-7890-abcd-ef1234567890" ∧
    ¬( has_core_prefix ( add_core_prefix "a1b2c3d4-e5f6-7890-abcd-ef1234567890") = true ∧
       has_soil_prefix ( add_core_prefix "a1b2c3d4-e5f6-7890-abcd-ef1234567890") = true) ∧
    ¬( has_core_prefix ( add_soil_prefix "a1b2c3d4-e5f6-7890-abcd-ef1234567890") = true ∧
       has_soil_prefix ( add_soil_prefix "a1b2c3d4-e5f6-7890-abcd-ef1234567890") = true) :=
  uid_prefix_algebra "a1b2c3d4-e5f6-7890-abcd-ef1234567890" (by decide) (by decide)

/-! ## Recurrence module (src/utils/recurrence.py)

The module delegates parsing and expansion to the external dateutil rrule
engine (an RFC 5545 implementation).  The engine is modelled here restricted
to daily rules — the strings "FREQ=DAILY" and "FREQ=DAILY;COUNT=n" — which
suffice to exercise every branch of the module's own dispatch logic.
Timestamps are modelled as seconds (naturals); a daily rule anchored at
dtstart has occurrences dtstart, dtstart + 86400, dtstart + 2*86400, …,
truncated to COUNT entries when the rule carries one.  Parse failures of
rrulestr are modelled as `none` / `Except.error`. -/

/-- Parsed daily recurrence rule: the dtstart anchor and the optional COUNT
carried by the rule string. -/
structure DailyRule where
  dtstart : Nat
  rcount : Option Nat
  deriving Repr, DecidableEq

/-- Model of dateutil's rrulestr restricted to daily rules; any other string
fails to parse, as rrulestr raises on invalid input. -/
def parseRRule (s : String) (dtstart : Nat) : Option DailyRule :=
  if s = "FREQ=DAILY" then some ⟨dtstart, none⟩
  else if py_startswith s "FREQ=DAILY;COUNT=" then
    match String.toNat? (String.mk (s.data.drop 17)) with
    | some n => some ⟨dtstart, some n⟩
    | none => none
  else none

/-- Occurrence number i of a daily rule. -/
def occAt (r : DailyRule) (i : Nat) : Nat := r.dtstart + i * 86400

/-- How many of the first n stream positions the rule's COUNT admits. -/
def capLen (r : DailyRule) (n : Nat) : Nat :=
  match r.rcount with
  | none => n
  | some k => min n k

/-- Model of slicing the rule's sorted occurrence stream, rule[:n]. -/
def ruleSlice (r : DailyRule) (n : Nat) : List Nat :=
  (List.range (capLen r n)).map (occAt r)

/-- Number of stream positions whose occurrence lies strictly below b. -/
def occIdxBelow (r : DailyRule) (b : Nat) : Nat :=
  if b ≤ r.dtstart then 0 else (b - r.dtstart + 86400 - 1) / 86400

/-- Model of dateutil rrule.between(after, before, inc=False): walk the
sorted stream, stop at the first occurrence ≥ before, and keep the
occurrences strictly greater than after. -/
def ruleBetween (r : DailyRule) (afterT beforeT : Nat) : List Nat :=
  ((List.range (capLen r (occIdxBelow r beforeT))).map (occAt r)).filter
    (fun x => decide (afterT < x))

/-- Stream position of the first occurrence strictly greater than t. -/
def nextIdx (r : DailyRule) (t : Nat) : Nat :=
  if t < r.dtstart then 0 else (t - r.dtstart) / 86400 + 1

/-- Model of dateutil rrule.after(dt, inc=False): the first occurrence
strictly greater than dt, if the rule admits one. -/
def ruleAfter (r : DailyRule) (t : Nat) : Option Nat :=
  match r.rcount with
  | none => some (occAt r (nextIdx r t))
  | some k => if nextIdx r t < k then some (occAt r (nextIdx r t)) else none

/-- Predicate: x is one of the rule's occurrences. -/
def isOccurrence (r : DailyRule) (x : Nat) : Prop :=
  ∃ i : Nat, x = r.dtstart + i * 86400 ∧
    match r.rcount with
    | none => True
    | some k => i < k

/-- Python truthiness of an optional integer: None and 0 are falsy. -/
def pyTruthyNat : Option Nat → Bool
  | none => false
  | some c => c != 0

/-- Embedding of generate_occurrences: parse with dtstart=start (a parse
failure propagates, modelled as none), then dispatch as the source does:
`if count:` slices the stream, `elif end:` uses between(start, end), else
the first 100 occurrences are returned. -/
def generate_occurrences (rrule_str : String) (start : Nat)
    (endAt : Option Nat) (count : Option Nat) : Option (List Nat) :=
  match parseRRule rrule_str start with
  | none => none
  | some rule =>
      if pyTruthyNat count then some (ruleSlice rule (count.getD 0))
      else
        match endAt with
        | some e => some (ruleBetween rule start e)
        | none => some (ruleSlice rule 100)

/-- Embedding of get_next_occurrence: rrulestr is called with dtstart=after
outside the try block, so a parse failure propagates (Except.error); the
subsequent rule.after lookup never raises in the model, so the except branch
that would return None is dead for it. -/
def get_next_occurrence (rrule_str : String) (afterT : Nat) :
    Except Unit (Option Nat) :=
  match parseRRule rrule_str afterT with
  | none => Except.error ()
  | some rule => Except.ok (ruleAfter rule afterT)

/-- C4 counterexample: with count = 0 the claim demands exactly zero
occurrences, but `if count:` treats 0 as absent and falls through to the
between branch, which moreover excludes the start occurrence although it
lies in [start, end): on FREQ=DAILY from 0 with end two days later the code
returns the single middle occurrence. -/
theorem generate_occurrences_count_zero_cex :
    generate_occurrences "FREQ=DAILY" 0 (some 172800) (some 0) = some [86400] ∧
    Option.map List.length (generate_occurrences "FREQ=DAILY" 0 (some 172800) (some 0)) ≠
      some 0 ∧
    ¬ (0 ∈ (generate_occurrences "FREQ=DAILY" 0 (some 172800) (some 0)).getD []) := by
  decide

/-- Membership in the modelled between list: exactly the rule's occurrences
strictly between the two bounds — the start bound itself is excluded. -/
theorem mem_ruleBetween (r : DailyRule) (a e x : Nat) :
    x ∈ ruleBetween r a e ↔ isOccurrence r x ∧ a < x ∧ x < e := by
  unfold ruleBetween occIdxBelow capLen isOccurrence occAt
  cases hc : r.rcount with
  | none =>
    simp only [List.mem_filter, List.mem_map, List.mem_range, decide_eq_true_eq]
    constructor
    · rintro ⟨⟨i, hi, rfl⟩, hax⟩
      refine ⟨⟨i, rfl, trivial⟩, hax, ?_⟩
      split at hi <;> omega
    · rintro ⟨⟨i, rfl, -⟩, hax, hxe⟩
      refine ⟨⟨i, ?_, rfl⟩, hax⟩
      split <;> omega
  | some k =>
    simp only [List.mem_filter, List.mem_map, List.mem_range, decide_eq_true_eq,
      lt_min_iff]
    constructor
    · rintro ⟨⟨i, hi, rfl⟩, hax⟩
      refine ⟨⟨i, rfl, hi.2⟩, hax, ?_⟩
      have h1 := hi.1
      split at h1 <;> omega
    · rintro ⟨⟨i, rfl, hik⟩, hax, hxe⟩
      refine ⟨⟨i, ⟨?_, hik⟩, rfl⟩, hax⟩
      split <;> omega

/-- The modelled rule.after returns the least occurrence strictly greater
than the probe, and None exactly when no such occurrence exists. -/
theorem ruleAfter_spec (r : DailyRule) (t : Nat) :
    (∀ x, ruleAfter r t = some x →
      isOccurrence r x ∧ t < x ∧ ∀ y, isOccurrence r y → t < y → x ≤ y) ∧
    (ruleAfter r t = none → ∀ y, isOccurrence r y → ¬ t < y) := by
  obtain ⟨st, rc⟩ := r
  cases rc with
  | none =>
    simp only [ruleAfter, isOccurrence, occAt, nextIdx]
    refine ⟨?_, ?_⟩
    · intro x hx
      injection hx with hx
      subst hx
      refine ⟨⟨_, rfl, trivial⟩, ?_, ?_⟩
      · split <;> omega
      · rintro y ⟨j, rfl, -⟩ hty
        split <;> omega
    · intro hx
      simp at hx
  | some k =>
    simp only [ruleAfter, isOccurrence, occAt, nextIdx]
    refine ⟨?_, ?_⟩
    · intro x hx
      by_cases hik : (if t < st then 0 else (t - st) / 86400 + 1) < k
      · rw [if_pos hik] at hx
        injection hx with hx
        subst hx
        refine ⟨⟨_, rfl, hik⟩, ?_, ?_⟩
        · split <;> omega
        · rintro y ⟨j, rfl, hjk⟩ hty
          split <;> omega
      · rw [if_neg hik] at hx
        exact absurd hx (by simp)
    · intro hx
      by_cases hik : (if t < st then 0 else (t - st) / 86400 + 1) < k
      · rw [if_pos hik] at hx
        exact absurd hx (by simp)
      · rintro y ⟨j, rfl, hjk⟩ hty
        revert hik
        split <;> omega

/-- C4 amended: for a rule that parses, a NONZERO count returns exactly
count occurrences (or the rule's COUNT, whichever is smaller — fewer when
the rule terminates early), each the i-th occurrence of the rule; when
count is absent or zero and end is given, the result consists of the
occurrences strictly between start and end, both bounds exclusive (start is
excluded even when it is an occurrence); otherwise at most the first 100
occurrences are returned. -/
theorem generate_occurrences_amended (s : String) (start : Nat) (r : DailyRule)
    (hp : parseRRule s start = some r) :
    (∀ (endAt : Option Nat) (c : Nat), c ≠ 0 →
      ∃ l, generate_occurrences s start endAt (some c) = some l ∧
        (r.rcount = none → l.length = c) ∧
        (∀ k, r.rcount = some k → l.length = min c k) ∧
        (∀ i x, l[i]? = some x → x = r.dtstart + i * 86400)) ∧
    (∀ (e : Nat) (oc : Option Nat), oc = none ∨ oc = some 0 →
      ∃ l, generate_occurrences s start (some e) oc = some l ∧
        (∀ x, x ∈ l ↔ isOccurrence r x ∧ start < x ∧ x < e)) ∧
    (∀ oc : Option Nat, oc = none ∨ oc = some 0 →
      ∃ l, generate_occurrences s start none oc = some l ∧
        l.length ≤ 100 ∧
        (∀ i x, l[i]? = some x → x = r.dtstart + i * 86400)) := by
  have hslice_len : ∀ n, (ruleSlice r n).length = capLen r n := by
    intro n
    simp [ruleSlice]
  have hslice_get : ∀ n i x, (ruleSlice r n)[i]? = some x → x = r.dtstart + i * 86400 := by
    intro n i x hx
    simp only [ruleSlice, List.getElem?_map] at hx
    by_cases hi : i < capLen r n
    · rw [List.getElem?_range hi] at hx
      injection hx with hx
      subst hx
      rfl
    · rw [List.getElem?_eq_none (by simpa using hi)] at hx
      simp at hx
  refine ⟨?_, ?_, ?_⟩
  · intro endAt c hc0
    have htruthy : pyTruthyNat (some c) = true := by
      simp [pyTruthyNat, hc0]
    refine ⟨ruleSlice r c, ?_, ?_, ?_, hslice_get c⟩
    · simp [generate_occurrences, hp, htruthy]
    · intro hnone
      rw [hslice_len c]
      simp [capLen, hnone]
    · intro k hk
      rw [hslice_len c]
      simp [capLen, hk]
  · intro e oc hoc
    have hfalsy : pyTruthyNat oc = false := by
      rcases hoc with rfl | rfl <;> simp [pyTruthyNat]
    refine ⟨ruleBetween r start e, ?_, fun x => mem_ruleBetween r start e x⟩
    simp [generate_occurrences, hp, hfalsy]
  · intro oc hoc
    have hfalsy : pyTruthyNat oc = false := by
      rcases hoc with rfl | rfl <;> simp [pyTruthyNat]
    refine ⟨ruleSlice r 100, ?_, ?_, hslice_get 100⟩
    · simp [generate_occurrences, hp, hfalsy]
    · rw [hslice_len 100]
      cases hk : r.rcount <;> simp [capLen, hk]

/-- C4 witness: the amended statement applied to the daily rule anchored at
zero, with count 3 and no end: exactly three occurrences come back. -/
theorem generate_occurrences_amended_witness :
    Option.map List.length (generate_occurrences "FREQ=DAILY" 0 none (some 3)) = some 3 := by
  obtain ⟨l, hl, hlen, -, -⟩ :=
    (generate_occurrences_amended "FREQ=DAILY" 0 ⟨0, none⟩ (by decide)).1 none 3 (by decide)
  rw [hl]
  simp [hlen rfl]

/-- C5: the claim says a parse failure is swallowed and the end-of-sequence
sentinel (None) is returned, but rrulestr is called outside the try block,
so the parse failure propagates to the caller instead of yielding the
sentinel: on the unparseable rule string "INVALID" the call errors. -/
theorem get_next_occurrence_invalid_raises :
    get_next_occurrence "INVALID" 0 = Except.error () ∧
    get_next_occurrence "INVALID" 0 ≠ Except.ok none := by
  have hparse : parseRRule "INVALID" 0 = none := by decide
  refine ⟨?_, ?_⟩
  · simp [get_next_occurrence, hparse]
  · simp [get_next_occurrence, hparse]

/-! ## ISO datetime module (src/utils/isodatetime.py)

Python datetimes are modelled at second resolution as calendar components
plus an optional fixed UTC offset in minutes (the tzinfo).  isoformat() is
modelled as the zero-padded YYYY-MM-DDTHH:MM:SS body, followed by the
+HH:MM / -HH:MM offset suffix when the value is aware, and str.replace as a
left-to-right non-overlapping scan. -/

/-- Python datetime at second resolution with an optional fixed UTC offset
in minutes. -/
structure PyDateTime where
  year : Nat
  month : Nat
  day : Nat
  hour : Nat
  minute : Nat
  second : Nat
  tz : Option Int
  deriving Repr, DecidableEq

/-- Decimal digit character of n mod 10. -/
def digitCh (n : Nat) : Char := Nat.digitChar (n % 10)

/-- Two zero-padded decimal digits, as %02d renders values below 100. -/
def pad2 (n : Nat) : List Char := [digitCh (n / 10), digitCh n]

/-- Four zero-padded decimal digits, as %04d renders values below 10000. -/
def pad4 (n : Nat) : List Char :=
  [digitCh (n / 1000), digitCh (n / 100), digitCh (n / 10), digitCh n]

/-- Date-time body of datetime.isoformat(): YYYY-MM-DDTHH:MM:SS, with zero
microseconds omitted as Python does. -/
def isoBodyChars (dt : PyDateTime) : List Char :=
  pad4 dt.year ++ ['-'] ++ pad2 dt.month ++ ['-'] ++ pad2 dt.day ++
  ['T'] ++ pad2 dt.hour ++ [':'] ++ pad2 dt.minute ++ [':'] ++ pad2 dt.second

/-- UTC-offset suffix of isoformat for an aware datetime: +HH:MM or -HH:MM
from the offset in minutes. -/
def offsetChars (off : Int) : List Char :=
  (if off < 0 then '-' else '+') ::
    (pad2 (off.natAbs / 60) ++ ':' :: pad2 (off.natAbs % 60))

/-- datetime.isoformat(): the body alone for a naive value, body plus
offset suffix for an aware one. -/
def isoformatChars (dt : PyDateTime) : List Char :=
  match dt.tz with
  | none => isoBodyChars dt
  | some off => isoBodyChars dt ++ offsetChars off

/-- Python str.replace for a non-empty pattern: scan left to right,
replacing each non-overlapping occurrence; the fuel bounds the number of
scan steps so the recursion is structural. -/
def pyReplaceGo (pat rep : List Char) : Nat → List Char → List Char
  | _, [] => []
  | 0, s => s
  | fuel + 1, c :: rest =>
    if pat.isPrefixOf (c :: rest) then
      rep ++ pyReplaceGo pat rep fuel (rest.drop (pat.length - 1))
    else
      c :: pyReplaceGo pat rep fuel rest

/-- Python str.replace on character lists (non-empty pattern). -/
def pyReplace (pat rep s : List Char) : List Char :=
  pyReplaceGo pat rep s.length s

/-- Embedding of to_timestamp: a naive datetime is tagged UTC (offset zero;
no instant conversion), then isoformat is taken and every "+00:00" in it is
replaced by "Z". -/
def to_timestamp (dt : PyDateTime) : String :=
  let dt2 := match dt.tz with
    | none => { dt with tz := some 0 }
    | some _ => dt
  String.mk (pyReplace ['+', '0', '0', ':', '0', '0'] ['Z'] (isoformatChars dt2))

/-- Decimal digit characters are never the plus sign. -/
theorem digitCh_ne_plus (n : Nat) : digitCh n ≠ '+' := by
  have hlt : n % 10 < 10 := Nat.mod_lt _ (by omega)
  have hall : ∀ m, m < 10 → Nat.digitChar m ≠ '+' := by decide
  exact hall (n % 10) hlt

/-- No character of a two-digit pad is a plus sign. -/
theorem pad2_no_plus (n : Nat) : ∀ c ∈ pad2 n, c ≠ '+' := by
  intro c hc
  simp only [pad2, List.mem_cons, List.not_mem_nil, or_false] at hc
  rcases hc with rfl | rfl
  · exact digitCh_ne_plus _
  · exact digitCh_ne_plus _

/-- No character of a four-digit pad is a plus sign. -/
theorem pad4_no_plus (n : Nat) : ∀ c ∈ pad4 n, c ≠ '+' := by
  intro c hc
  simp only [pad4, List.mem_cons, List.not_mem_nil, or_false] at hc
  rcases hc with rfl | rfl | rfl | rfl
  · exact digitCh_ne_plus _
  · exact digitCh_ne_plus _
  · exact digitCh_ne_plus _
  · exact digitCh_ne_plus _

/-- The isoformat body never contains a plus sign: every character is a
decimal digit or one of the separators -, T, :. -/
theorem isoBodyChars_no_plus (dt : PyDateTime) : ∀ c ∈ isoBodyChars dt, c ≠ '+' := by
  intro c hc
  simp only [isoBodyChars, List.mem_append, List.mem_singleton] at hc
  rcases hc with ((((((((((h | rfl) | h) | rfl) | h) | rfl) | h) | rfl) | h) | rfl) | h)
  · exact pad4_no_plus _ c h
  · decide
  · exact pad2_no_plus _ c h
  · decide
  · exact pad2_no_plus _ c h
  · decide
  · exact pad2_no_plus _ c h
  · decide
  · exact pad2_no_plus _ c h
  · decide
  · exact pad2_no_plus _ c h

/-- When a body free of plus signs is followed by exactly the pattern
"+00:00", the scan copies the body and replaces the final pattern. -/
theorem pyReplaceGo_boundary (rep : List Char) :
    ∀ (body : List Char) (fuel : Nat), (∀ c ∈ body, c ≠ '+') →
      body.length + 1 ≤ fuel →
      pyReplaceGo ['+', '0', '0', ':', '0', '0'] rep fuel
        (body ++ ['+', '0', '0', ':', '0', '0']) = body ++ rep := by
  intro body
  induction body with
  | nil =>
    intro fuel _ hfuel
    match fuel, hfuel with
    | f + 1, _ =>
      simp [pyReplaceGo, List.isPrefixOf]
  | cons c bs ih =>
    intro fuel hplus hfuel
    match fuel, hfuel with
    | f + 1, hfuel =>
      have hc : c ≠ '+' := hplus c (by simp)
      have hpref :
          List.isPrefixOf ['+', '0', '0', ':', '0', '0'] (c :: (bs ++ ['+', '0', '0', ':', '0', '0'])) = false := by
        simp [List.isPrefixOf, hc, Ne.symm hc]
      simp only [List.length_cons] at hfuel
      simp only [List.cons_append]
      simp [pyReplaceGo, hpref]
      rw [ih f (fun x hx => hplus x (by simp [hx])) (by omega)]

/-- C6 counterexample: an aware datetime with a non-zero UTC offset (+08:00)
is not converted to UTC and keeps its own offset suffix, so the result is
not expressed in UTC and does not end with the literal Z the claim demands
for every datetime. -/
theorem to_timestamp_offset_cex :
    to_timestamp ⟨2025, 1, 1, 0, 0, 0, some 480⟩ = "2025-01-01T00:00:00+08:00" ∧
    (to_timestamp ⟨2025, 1, 1, 0, 0, 0, some 480⟩).data.getLast? ≠ some 'Z' := by
  decide

/-- C6 amended: for a naive datetime or one carrying the zero UTC offset,
to_timestamp returns the ISO body of the same clock reading with a literal
Z appended in place of +00:00 — a naive value is treated as already UTC,
only the zone annotation being added; aware values with non-zero offset
keep their own offset (no conversion, no Z). -/
theorem to_timestamp_amended (dt : PyDateTime) (h : dt.tz = none ∨ dt.tz = some 0) :
    to_timestamp dt = String.mk (isoBodyChars dt ++ ['Z']) ∧
    (to_timestamp dt).data.getLast? = some 'Z' := by
  have key : ∀ dt2 : PyDateTime, dt2.tz = some 0 → isoBodyChars dt2 = isoBodyChars dt →
      to_timestamp dt2 = String.mk (isoBodyChars dt ++ ['Z']) := by
    intro dt2 htz hbody
    obtain ⟨y, mo, d, hh, mi, ss, tz⟩ := dt2
    simp only at htz
    subst htz
    show String.mk (pyReplace ['+', '0', '0', ':', '0', '0'] ['Z']
      (isoformatChars ⟨y, mo, d, hh, mi, ss, some 0⟩)) = _
    have hoff : isoformatChars ⟨y, mo, d, hh, mi, ss, some 0⟩ =
        isoBodyChars ⟨y, mo, d, hh, mi, ss, some 0⟩ ++ ['+', '0', '0', ':', '0', '0'] := rfl
    rw [hoff]
    apply congrArg
    unfold pyReplace
    rw [pyReplaceGo_boundary ['Z'] _ _ (isoBodyChars_no_plus _)
      (by simp [List.length_append])]
    rw [hbody]
  have hmain : to_timestamp dt = String.mk (isoBodyChars dt ++ ['Z']) := by
    rcases h with h | h
    · obtain ⟨y, mo, d, hh, mi, ss, tz⟩ := dt
      simp only at h
      subst h
      have : to_timestamp ⟨y, mo, d, hh, mi, ss, none⟩ =
          to_timestamp ⟨y, mo, d, hh, mi, ss, some 0⟩ := rfl
      rw [this]
      exact key ⟨y, mo, d, hh, mi, ss, some 0⟩ rfl rfl
    · exact key dt h rfl
  refine ⟨hmain, ?_⟩
  rw [hmain]
  show (isoBodyChars dt ++ ['Z']).getLast? = some 'Z'
  simp

/-- C6 witness: the amended statement at a concrete naive datetime — only
the Z annotation is added. -/
theorem to_timestamp_amended_witness :
    to_timestamp ⟨2025, 1, 1, 0, 0, 0, none⟩ = "2025-01-01T00:00:00Z" ∧
    (to_timestamp ⟨2025, 1, 1, 0, 0, 0, none⟩).data.getLast? = some 'Z' := by
  have h := to_timestamp_amended ⟨2025, 1, 1, 0, 0, 0, none⟩ (Or.inl rfl)
  refine ⟨?_, h.2⟩
  rw [h.1]
  decide

/-! ## Textbox formatter (src/utils/format/textbox.py)

display_width consults unicodedata.east_asian_width; the W (wide) and F
(fullwidth) categories are modelled as the code-point ranges of the Unicode
East Asian Width table.  The box-drawing characters of the border are in
the ambiguous category and therefore count one column. -/

/-- Code-point ranges whose east_asian_width is W or F, modelled from the
Unicode EastAsianWidth table consulted by Python's unicodedata. -/
def eaWideRanges : List (Nat × Nat) :=
  [(0x1100, 0x115F), (0x2329, 0x232A), (0x2E80, 0x303E), (0x3041, 0x33FF),
   (0x3400, 0x4DBF), (0x4E00, 0x9FFF), (0xA000, 0xA4CF), (0xA960, 0xA97F),
   (0xAC00, 0xD7A3), (0xF900, 0xFAFF), (0xFE10, 0xFE19), (0xFE30, 0xFE52),
   (0xFE54, 0xFE66), (0xFE68, 0xFE6B), (0xFF00, 0xFF60), (0xFFE0, 0xFFE6),
   (0x1B000, 0x1B001), (0x1F200, 0x1F251), (0x20000, 0x2FFFD), (0x30000, 0x3FFFD)]

/-- Test: unicodedata.east_asian_width of the character is W or F. -/
def isEAWideOrFull (c : Char) : Bool :=
  eaWideRanges.any (fun p => decide (p.1 ≤ c.toNat ∧ c.toNat ≤ p.2))

/-- Embedding of display_width: wide and fullwidth characters count two
columns, every other character one. -/
def display_width (s : String) : Nat :=
  (s.data.map (fun c => if isEAWideOrFull c then 2 else 1)).sum

/-- Padded content row of the box: two border characters, two padding
spaces, the line, and width - display_width(line) - 2 fill spaces. -/
def pad_line (width : Nat) (line : String) : String :=
  "║ " ++ line ++ String.mk (List.replicate (width - display_width line - 2) ' ') ++ " ║"

/-- Rows of format_box in order: top border, padded title, divider, padded
body lines, bottom border. -/
def format_box_lines (title : String) (body_lines : List String) (min_width : Nat) :
    List String :=
  let all_lines := title :: body_lines
  let content_width := (all_lines.map display_width).foldl max 0
  let width := max min_width (content_width + 4)
  let border := "╔" ++ String.mk (List.replicate (width - 2) '═') ++ "╗"
  let divider := "╠" ++ String.mk (List.replicate (width - 2) '═') ++ "╣"
  let bottom := "╚" ++ String.mk (List.replicate (width - 2) '═') ++ "╝"
  ([border, pad_line width title, divider] ++
    body_lines.map (pad_line width)) ++ [bottom]

/-- Embedding of format_box: the rows joined with newlines. -/
def format_box (title : String) (body_lines : List String) (min_width : Nat) : String :=
  String.intercalate "\n" (format_box_lines title body_lines min_width)

/-- C7: the claim demands every rendered row of the default-width box for
title "Test" and body ["a"] to span exactly 60 display columns, but the
padded rows insert two border characters AND two padding spaces around the
width - display_width - 2 fill, so the title and body rows span 62 columns
while the border rows span 60: the rows do not align and the claim fails.
The border rows do use the double-line box-drawing characters. -/
theorem format_box_row_widths :
    (format_box_lines "Test" ["a"] 60).map display_width = [60, 62, 60, 62, 60] ∧
    ¬ (∀ row ∈ format_box_lines "Test" ["a"] 60, display_width row = 60) ∧
    ((format_box_lines "Test" ["a"] 60).headD "").data.headD ' ' = '╔' ∧
    (((format_box_lines "Test" ["a"] 60).getLast? ).getD "").data.headD ' ' = '╚' := by
  decide

/-! ## Resource-profile registry (src/utils/config/profiles.py)

The registry maps two names to dictionaries of five tunables.  To make the
`.copy()` in get_profile observable, dictionaries live in a small heap
keyed by address: the registry owns addresses 0 and 1, and each call
allocates the returned copy at a fresh address, so caller mutation of the
copy cannot reach the registry. -/

/-- The five tunables of a resource profile.  The fossilization threshold,
a Python float literal, is represented by the rational it denotes. -/
structure Profile where
  max_view_entries : Int
  max_search_results : Int
  fossilization_threshold : Rat
  wal_checkpoint_interval : Int
  log_level : String
  deriving Repr, DecidableEq

/-- The embedded profile values from the PROFILES class attribute. -/
def embeddedProfile : Profile :=
  { max_view_entries := 100, max_search_results := 20,
    fossilization_threshold := 4/5, wal_checkpoint_interval := 300,
    log_level := "warning" }

/-- The standard profile values from the PROFILES class attribute. -/
def standardProfile : Profile :=
  { max_view_entries := 1000, max_search_results := 100,
    fossilization_threshold := 9/10, wal_checkpoint_interval := 60,
    log_level := "info" }

/-- Heap of profile dictionaries: the registry's two dicts sit at the fixed
addresses 0 (embedded) and 1 (standard); fresh copies are allocated at
`next`. -/
structure ProfileHeap where
  mem : Nat → Profile
  next : Nat

/-- Initial heap: the class-level PROFILES registry. -/
def initialHeap : ProfileHeap :=
  { mem := fun a => if a = 0 then embeddedProfile else standardProfile, next := 2 }

/-- Registry lookup, as `name in cls.PROFILES`. -/
def profileAddr (name : String) : Option Nat :=
  if name = "embedded" then some 0
  else if name = "standard" then some 1
  else none

/-- Embedding of ResourceProfile.get_profile: an unknown name raises
ValueError; a known name returns a fresh shallow copy of the registry's
dict, allocated at a new address. -/
def get_profile_heap (h : ProfileHeap) (name : String) :
    Except String (Nat × ProfileHeap) :=
  match profileAddr name with
  | none => Except.error ("Unknown resource profile: " ++ name ++
      ". Available: [embedded, standard]")
  | some a => Except.ok (h.next,
      { mem := fun b => if b = h.next then h.mem a else h.mem b,
        next := h.next + 1 })

/-- In-place mutation of the dictionary at one address: what a caller could
do to a mapping it received. -/
def mutateAt (h : ProfileHeap) (a : Nat) (f : Profile → Profile) : ProfileHeap :=
  { mem := fun b => if b = a then f (h.mem b) else h.mem b, next := h.next }

/-- Requesting the embedded profile copies the dict at address 0 to a fresh
address. -/
theorem get_profile_heap_embedded (h : ProfileHeap) :
    get_profile_heap h "embedded" = Except.ok (h.next,
      { mem := fun b => if b = h.next then h.mem 0 else h.mem b,
        next := h.next + 1 }) := by
  have haddr : profileAddr "embedded" = some 0 := by decide
  simp [get_profile_heap, haddr]

/-- Requesting the standard profile copies the dict at address 1 to a fresh
address. -/
theorem get_profile_heap_standard (h : ProfileHeap) :
    get_profile_heap h "standard" = Except.ok (h.next,
      { mem := fun b => if b = h.next then h.mem 1 else h.mem b,
        next := h.next + 1 }) := by
  have haddr : profileAddr "standard" = some 1 := by decide
  simp [get_profile_heap, haddr]

/-- C8: get_profile("embedded") returns exactly the documented mapping;
every name outside the registry fails with the unknown-profile ValueError,
whatever the heap; and for both registered names the returned mapping is a
fresh copy, so arbitrary mutation of it leaves the registry entry
untouched and a repeated call still returns the original values. -/
theorem get_profile_embedded_spec :
    (∃ h1, get_profile_heap initialHeap "embedded" = Except.ok (2, h1) ∧
      h1.mem 2 =
        { max_view_entries := 100, max_search_results := 20,
          fossilization_threshold := 4/5, wal_checkpoint_interval := 300,
          log_level := "warning" }) ∧
    (∀ (h : ProfileHeap) (name : String), name ≠ "embedded" → name ≠ "standard" →
      ∃ msg, get_profile_heap h name = Except.error msg) ∧
    (∀ (f : Profile → Profile) (a : Nat) (h1 : ProfileHeap),
      get_profile_heap initialHeap "embedded" = Except.ok (a, h1) →
      (mutateAt h1 a f).mem 0 = embeddedProfile ∧
      ∃ a2 h2, get_profile_heap (mutateAt h1 a f) "embedded" = Except.ok (a2, h2) ∧
        h2.mem a2 = embeddedProfile) ∧
    (∀ (f : Profile → Profile) (a : Nat) (h1 : ProfileHeap),
      get_profile_heap initialHeap "standard" = Except.ok (a, h1) →
      h1.mem a = standardProfile ∧
      (mutateAt h1 a f).mem 1 = standardProfile ∧
      ∃ a2 h2, get_profile_heap (mutateAt h1 a f) "standard" = Except.ok (a2, h2) ∧
        h2.mem a2 = standardProfile) := by
  refine ⟨?_, ?_, ?_, ?_⟩
  · refine ⟨_, get_profile_heap_embedded initialHeap, ?_⟩
    rfl
  · intro h name hn1 hn2
    refine ⟨"Unknown resource profile: " ++ name ++ ". Available: [embedded, standard]", ?_⟩
    simp [get_profile_heap, profileAddr, hn1, hn2]
  · intro f a h1 heq
    rw [get_profile_heap_embedded initialHeap] at heq
    injection heq with heq
    injection heq with ha hh
    subst ha
    subst hh
    constructor
    · simp [mutateAt, initialHeap]
    · refine ⟨_, _, get_profile_heap_embedded _, ?_⟩
      simp [mutateAt, initialHeap]
  · intro f a h1 heq
    rw [get_profile_heap_standard initialHeap] at heq
    injection heq with heq
    injection heq with ha hh
    subst ha
    subst hh
    refine ⟨?_, ?_, ?_⟩
    · simp [initialHeap]
    · simp [mutateAt, initialHeap]
    · refine ⟨_, _, get_profile_heap_standard _, ?_⟩
      simp [mutateAt, initialHeap]

/-- C8 witness: an unregistered name fails, and after mutating the copies
returned for "embedded" and for "standard" a repeated request for each
still yields the original registry values. -/
theorem get_profile_embedded_spec_witness :
    (∃ msg, get_profile_heap initialHeap "bogus" = Except.error msg) ∧
    ((mutateAt { mem := fun b => if b = initialHeap.next then initialHeap.mem 0
          else initialHeap.mem b, next := initialHeap.next + 1 }
        initialHeap.next (fun p => { p with max_view_entries := 0 })).mem 0 =
      embeddedProfile) ∧
    ((mutateAt { mem := fun b => if b = initialHeap.next then initialHeap.mem 1
          else initialHeap.mem b, next := initialHeap.next + 1 }
        initialHeap.next (fun p => { p with max_view_entries := 0 })).mem 1 =
      standardProfile) := by
  refine ⟨get_profile_embedded_spec.2.1 initialHeap "bogus" (by decide) (by decide), ?_, ?_⟩
  · exact (get_profile_embedded_spec.2.2.1 (fun p => { p with max_view_entries := 0 })
      initialHeap.next _ (get_profile_heap_embedded initialHeap)).1
  · exact (get_profile_embedded_spec.2.2.2 (fun p => { p with max_view_entries := 0 })
      initialHeap.next _ (get_profile_heap_standard initialHeap)).2.1

/-! ## Configuration module (src/utils/config/base.py)

Settings.__init__ is embedded as a function of the state of the config
file at the resolved path and of the environment.  Dynamic setattr over the
DEFAULTS dict becomes a record; the TOML mapping is restricted to the
sections and keys the source recognizes (arbitrary extra runtime keys,
applied verbatim by the source, fall outside the claims).  Python float
literals are represented by the rationals they denote.  The partial
attribute assignment that a TOML apply performs before raising a caught
ValueError is not modelled: it only affects the internal profile-name
field on the warning path, which no claim observes. -/

/-- Runtime section of the TOML config, restricted to its recognized keys. -/
structure TomlRuntime where
  resource_profile : Option String
  max_view_entries : Option Int
  max_search_results : Option Int
  fossilization_threshold : Option Rat
  wal_checkpoint_interval : Option Int
  log_level : Option String
  deriving Repr, DecidableEq

/-- Parsed TOML config: the four recognized sections, flattened. -/
structure TomlConfig where
  runtime : Option TomlRuntime
  network_bind_address : Option String
  network_bind_port : Option Int
  security_encryption : Option String
  paths_data_dir : Option String
  paths_config_dir : Option String
  paths_log_dir : Option String
  deriving Repr, DecidableEq

/-- State of the config file at the resolved path: missing, unparseable
TOML, or parsed content. -/
inductive ConfigFile where
  | absent
  | invalid
  | parsed (c : TomlConfig)
  deriving Repr, DecidableEq

/-- The resolved settings object. -/
structure Settings where
  database_path : Option String
  default_currency : String
  max_view_entries : Int
  max_search_results : Int
  fossilization_threshold : Rat
  wal_checkpoint_interval : Int
  log_level : String
  bind_address : String
  bind_port : Int
  encryption : String
  data_dir : Option String
  config_dir : Option String
  log_dir : Option String
  resource_profile_name : String
  deriving Repr, DecidableEq

/-- Built-in defaults (the DEFAULTS class attribute) together with the
constructor arguments and the initial profile name. -/
def defaultSettings (dbPath : Option String) (currency : String) : Settings :=
  { database_path := dbPath, default_currency := currency,
    max_view_entries := 1000, max_search_results := 100,
    fossilization_threshold := 9/10, wal_checkpoint_interval := 60,
    log_level := "info", bind_address := "127.0.0.1", bind_port := 8080,
    encryption := "disabled", data_dir := none, config_dir := none,
    log_dir := none, resource_profile_name := "standard" }

/-- Value-level ResourceProfile.get_profile as used during settings
resolution: only the values flow into the settings object. -/
def get_profile (name : String) : Except String Profile :=
  if name = "embedded" then Except.ok embeddedProfile
  else if name = "standard" then Except.ok standardProfile
  else Except.error ("Unknown resource profile: " ++ name ++
    ". Available: [embedded, standard]")

/-- Merge a profile's five tunables into the settings. -/
def applyProfile (p : Profile) (s : Settings) : Settings :=
  { s with
    max_view_entries := p.max_view_entries,
    max_search_results := p.max_search_results,
    fossilization_threshold := p.fossilization_threshold,
    wal_checkpoint_interval := p.wal_checkpoint_interval,
    log_level := p.log_level }

/-- Overwrite through f when the optional value is present. -/
def applyOpt {α : Type} (v : Option α) (f : α → Settings → Settings)
    (s : Settings) : Settings :=
  match v with
  | none => s
  | some x => f x s

/-- Embedding of Settings._apply_toml_config: the profile named by
runtime.resource_profile (default "standard") is fetched — an unknown name
raises ValueError out of this function — and merged, then the runtime
overrides, then the network, security and paths sections; empty path
strings are falsy in Python and are skipped. -/
def applyTomlConfig (c : TomlConfig) (s0 : Settings) : Except String Settings := do
  let rt := c.runtime.getD
    { resource_profile := none, max_view_entries := none, max_search_results := none,
      fossilization_threshold := none, wal_checkpoint_interval := none, log_level := none }
  let pname := rt.resource_profile.getD "standard"
  let prof ← get_profile pname
  let s1 := applyProfile prof { s0 with resource_profile_name := pname }
  let s2 := applyOpt rt.max_view_entries (fun v s => { s with max_view_entries := v }) s1
  let s3 := applyOpt rt.max_search_results (fun v s => { s with max_search_results := v }) s2
  let s4 := applyOpt rt.fossilization_threshold
    (fun v s => { s with fossilization_threshold := v }) s3
  let s5 := applyOpt rt.wal_checkpoint_interval
    (fun v s => { s with wal_checkpoint_interval := v }) s4
  let s6 := applyOpt rt.log_level (fun v s => { s with log_level := v }) s5
  let s7 := applyOpt c.network_bind_address (fun v s => { s with bind_address := v }) s6
  let s8 := applyOpt c.network_bind_port (fun v s => { s with bind_port := v }) s7
  let s9 := applyOpt c.security_encryption (fun v s => { s with encryption := v }) s8
  let s10 := applyOpt c.paths_data_dir
    (fun v s => if v = "" then s else { s with data_dir := some v }) s9
  let s11 := applyOpt c.paths_config_dir
    (fun v s => if v = "" then s else { s with config_dir := some v }) s10
  let s12 := applyOpt c.paths_log_dir
    (fun v s => if v = "" then s else { s with log_dir := some v }) s11
  return s12

/-- Environment of the process, as lookups of variable names. -/
abbrev Env := String → Option String

/-- The twelve MEMOGARDEN_* variables recognized by _apply_env_vars. -/
def MEMOGARDEN_VARS : List String :=
  ["MEMOGARDEN_RESOURCE_PROFILE", "MEMOGARDEN_MAX_VIEW_ENTRIES",
   "MEMOGARDEN_MAX_SEARCH_RESULTS", "MEMOGARDEN_FOSSILIZATION_THRESHOLD",
   "MEMOGARDEN_WAL_CHECKPOINT_INTERVAL", "MEMOGARDEN_LOG_LEVEL",
   "MEMOGARDEN_BIND_ADDRESS", "MEMOGARDEN_BIND_PORT", "MEMOGARDEN_ENCRYPTION",
   "MEMOGARDEN_DATA_DIR", "MEMOGARDEN_CONFIG_DIR", "MEMOGARDEN_LOG_DIR"]

/-- Python int(): an optionally signed decimal string, or a raised
ValueError. -/
def pyInt (v : String) : Except String Int :=
  match v.toInt? with
  | some n => Except.ok n
  | none => Except.error ("invalid literal for int() with base 10: " ++ v)

/-- Python float() restricted to plain decimal literals, as the rational
denoted: optional sign and digits, optionally a dot and fraction digits;
anything else raises. -/
def pyFloat (v : String) : Except String Rat :=
  match v.split (fun c => c = '.') with
  | [a] => (pyInt a).map (fun n => (n : Rat))
  | [a, b] =>
    match a.toInt?, b.toNat? with
    | some n, some fr =>
      let mag : Rat := (n.natAbs : Rat) + (fr : Rat) / ((10 : Rat) ^ b.length)
      Except.ok (if py_startswith v "-" then -mag else mag)
    | _, _ => Except.error ("could not convert string to float: " ++ v)
  | _ => Except.error ("could not convert string to float: " ++ v)

/-- Embedding of Settings._apply_env_vars, in source order: the resource
profile is applied first (an unknown name raises ValueError out of the
constructor), then each typed variable overwrites its field; int/float
parse failures raise as well. -/
def applyEnvVars (env : Env) (s0 : Settings) : Except String Settings := do
  let s1 ← match env "MEMOGARDEN_RESOURCE_PROFILE" with
    | none => Except.ok s0
    | some p => do
        let prof ← get_profile p
        Except.ok (applyProfile prof { s0 with resource_profile_name := p })
  let s2 ← match env "MEMOGARDEN_MAX_VIEW_ENTRIES" with
    | none => Except.ok s1
    | some v => (pyInt v).map (fun n => { s1 with max_view_entries := n })
  let s3 ← match env "MEMOGARDEN_MAX_SEARCH_RESULTS" with
    | none => Except.ok s2
    | some v => (pyInt v).map (fun n => { s2 with max_search_results := n })
  let s4 ← match env "MEMOGARDEN_FOSSILIZATION_THRESHOLD" with
    | none => Except.ok s3
    | some v => (pyFloat v).map (fun x => { s3 with fossilization_threshold := x })
  let s5 ← match env "MEMOGARDEN_WAL_CHECKPOINT_INTERVAL" with
    | none => Except.ok s4
    | some v => (pyInt v).map (fun n => { s4 with wal_checkpoint_interval := n })
  let s6 := match env "MEMOGARDEN_LOG_LEVEL" with
    | none => s5
    | some v => { s5 with log_level := v }
  let s7 := match env "MEMOGARDEN_BIND_ADDRESS" with
    | none => s6
    | some v => { s6 with bind_address := v }
  let s8 ← match env "MEMOGARDEN_BIND_PORT" with
    | none => Except.ok s7
    | some v => (pyInt v).map (fun n => { s7 with bind_port := n })
  let s9 := match env "MEMOGARDEN_ENCRYPTION" with
    | none => s8
    | some v => { s8 with encryption := v }
  let s10 := match env "MEMOGARDEN_DATA_DIR" with
    | none => s9
    | some v => { s9 with data_dir := some v }
  let s11 := match env "MEMOGARDEN_CONFIG_DIR" with
    | none => s10
    | some v => { s10 with config_dir := some v }
  let s12 := match env "MEMOGARDEN_LOG_DIR" with
    | none => s11
    | some v => { s11 with log_dir := some v }
  return s12

/-- Embedding of Settings.__init__ given the config-file state at the
resolved path and the environment: defaults first, then the TOML file if
it exists — an ImportError/ValueError while loading or applying it is
caught and downgraded to a warning — then the environment overrides, whose
errors propagate.  Returns the settings with the warnings emitted. -/
def settingsInit (dbPath : Option String) (currency : String)
    (cfg : ConfigFile) (env : Env) : Except String (Settings × List String) := do
  let s0 := defaultSettings dbPath currency
  let s1w :=
    match cfg with
    | ConfigFile.absent => (s0, ([] : List String))
    | ConfigFile.invalid => (s0, ["Failed to load config: invalid TOML"])
    | ConfigFile.parsed c =>
      match applyTomlConfig c s0 with
      | Except.ok s => (s, [])
      | Except.error e => (s0, ["Failed to load config: " ++ e])
  let s2 ← applyEnvVars env s1w.1
  return (s2, s1w.2)

/-- C9: with the resolved config file absent and none of the MEMOGARDEN_*
variables set, construction succeeds with exactly the built-in defaults —
max_view_entries 1000, max_search_results 100, fossilization_threshold
0.90, wal_checkpoint_interval 60, log_level "info", bind_address
"127.0.0.1", bind_port 8080, encryption "disabled" — plus database_path
absent and default_currency "SGD", and no warning is emitted. -/
theorem settings_defaults_spec (env : Env)
    (h : ∀ k ∈ MEMOGARDEN_VARS, env k = none) :
    settingsInit none "SGD" ConfigFile.absent env =
      Except.ok
        ({ database_path := none, default_currency := "SGD",
           max_view_entries := 1000, max_search_results := 100,
           fossilization_threshold := 9/10, wal_checkpoint_interval := 60,
           log_level := "info", bind_address := "127.0.0.1", bind_port := 8080,
           encryption := "disabled", data_dir := none, config_dir := none,
           log_dir := none, resource_profile_name := "standard" }, []) := by
  have e1 := h "MEMOGARDEN_RESOURCE_PROFILE" (by decide)
  have e2 := h "MEMOGARDEN_MAX_VIEW_ENTRIES" (by decide)
  have e3 := h "MEMOGARDEN_MAX_SEARCH_RESULTS" (by decide)
  have e4 := h "MEMOGARDEN_FOSSILIZATION_THRESHOLD" (by decide)
  have e5 := h "MEMOGARDEN_WAL_CHECKPOINT_INTERVAL" (by decide)
  have e6 := h "MEMOGARDEN_LOG_LEVEL" (by decide)
  have e7 := h "MEMOGARDEN_BIND_ADDRESS" (by decide)
  have e8 := h "MEMOGARDEN_BIND_PORT" (by decide)
  have e9 := h "MEMOGARDEN_ENCRYPTION" (by decide)
  have e10 := h "MEMOGARDEN_DATA_DIR" (by decide)
  have e11 := h "MEMOGARDEN_CONFIG_DIR" (by decide)
  have e12 := h "MEMOGARDEN_LOG_DIR" (by decide)
  simp only [settingsInit, applyEnvVars, defaultSettings,
    e1, e2, e3, e4, e5, e6, e7, e8, e9, e10, e11, e12]
  rfl

/-- C9 witness: construction against the empty environment and a missing
config file yields the defaults. -/
theorem settings_defaults_spec_witness :
    settingsInit none "SGD" ConfigFile.absent (fun _ => none) =
      Except.ok
        ({ database_path := none, default_currency := "SGD",
           max_view_entries := 1000, max_search_results := 100,
           fossilization_threshold := 9/10, wal_checkpoint_interval := 60,
           log_level := "info", bind_address := "127.0.0.1", bind_port := 8080,
           encryption := "disabled", data_dir := none, config_dir := none,
           log_dir := none, resource_profile_name := "standard" }, []) :=
  settings_defaults_spec (fun _ => none) (fun _ _ => rfl)

/-- C10: when MEMOGARDEN_RESOURCE_PROFILE names an unregistered profile,
construction fails with the unknown-profile error whatever the config
file held and whatever the other variables hold, because _apply_env_vars
runs outside any try; a TOML parse failure, by contrast, is caught in the
same constructor and downgraded to a warning. -/
theorem settings_env_profile_error (env : Env) (p : String)
    (hp : env "MEMOGARDEN_RESOURCE_PROFILE" = some p)
    (h1 : p ≠ "embedded") (h2 : p ≠ "standard") :
    (∀ (dbPath : Option String) (currency : String) (cfg : ConfigFile),
      settingsInit dbPath currency cfg env =
        Except.error ("Unknown resource profile: " ++ p ++
          ". Available: [embedded, standard]")) ∧
    (∀ env2 : Env, (∀ k ∈ MEMOGARDEN_VARS, env2 k = none) →
      ∀ (dbPath : Option String) (currency : String),
        ∃ s, settingsInit dbPath currency ConfigFile.invalid env2 =
          Except.ok (s, ["Failed to load config: invalid TOML"])) := by
  constructor
  · intro dbPath currency cfg
    have herr : ∀ s0 : Settings, applyEnvVars env s0 =
        Except.error ("Unknown resource profile: " ++ p ++
          ". Available: [embedded, standard]") := by
      intro s0
      have hprof : get_profile p = Except.error ("Unknown resource profile: " ++ p ++
          ". Available: [embedded, standard]") := by
        simp [get_profile, h1, h2]
      unfold applyEnvVars
      simp only [hp]
      rw [hprof]
      rfl
    cases cfg with
    | absent =>
      simp only [settingsInit]
      rw [herr]
      rfl
    | invalid =>
      simp only [settingsInit]
      rw [herr]
      rfl
    | parsed c =>
      cases htoml : applyTomlConfig c (defaultSettings dbPath currency) with
      | ok s =>
        simp only [settingsInit, htoml]
        rw [herr]
        rfl
      | error e =>
        simp only [settingsInit, htoml]
        rw [herr]
        rfl
  · intro env2 h dbPath currency
    have e1 := h "MEMOGARDEN_RESOURCE_PROFILE" (by decide)
    have e2 := h "MEMOGARDEN_MAX_VIEW_ENTRIES" (by decide)
    have e3 := h "MEMOGARDEN_MAX_SEARCH_RESULTS" (by decide)
    have e4 := h "MEMOGARDEN_FOSSILIZATION_THRESHOLD" (by decide)
    have e5 := h "MEMOGARDEN_WAL_CHECKPOINT_INTERVAL" (by decide)
    have e6 := h "MEMOGARDEN_LOG_LEVEL" (by decide)
    have e7 := h "MEMOGARDEN_BIND_ADDRESS" (by decide)
    have e8 := h "MEMOGARDEN_BIND_PORT" (by decide)
    have e9 := h "MEMOGARDEN_ENCRYPTION" (by decide)
    have e10 := h "MEMOGARDEN_DATA_DIR" (by decide)
    have e11 := h "MEMOGARDEN_CONFIG_DIR" (by decide)
    have e12 := h "MEMOGARDEN_LOG_DIR" (by decide)
    refine ⟨defaultSettings dbPath currency, ?_⟩
    simp only [settingsInit, applyEnvVars,
      e1, e2, e3, e4, e5, e6, e7, e8, e9, e10, e11, e12]
    rfl

/-- C10 witness: an environment holding only an unregistered profile name
makes construction fail even though no config file exists, while an
unparseable config file with a clean environment only warns. -/
theorem settings_env_profile_error_witness :
    (settingsInit none "SGD" ConfigFile.absent
        (fun k => if k = "MEMOGARDEN_RESOURCE_PROFILE" then some "tiny" else none) =
      Except.error ("Unknown resource profile: " ++ "tiny" ++
        ". Available: [embedded, standard]")) ∧
    (∃ s, settingsInit none "SGD" ConfigFile.invalid (fun _ => none) =
      Except.ok (s, ["Failed to load config: invalid TOML"])) := by
  have h := settings_env_profile_error
    (fun k => if k = "MEMOGARDEN_RESOURCE_PROFILE" then some "tiny" else none)
    "tiny" (by decide) (by decide) (by decide)
  exact ⟨h.1 none "SGD" ConfigFile.absent, h.2 (fun _ => none) (fun _ _ => rfl) none "SGD"⟩
